import Mathlib

/-
Verification of the SVG track-import pipeline (svg-parser.ts,
track-transformer.ts, matter-factory.ts, track-importer.ts).

JavaScript numbers are modelled as rationals extended with NaN and the two
infinities; IEEE-754 rounding and negative zero are not distinguished, but
NaN propagation, the NaN/infinity cases of comparison, min, and division,
and the truthiness of 0 and NaN are modelled as in JavaScript.  Thrown
exceptions are modelled with `Except String`; the DOM is modelled as the
flattened, document-ordered list of elements with their attribute lists.
-/

/-- JavaScript number: a rational, NaN, or an infinity. -/
inductive JSNum where
  | nan : JSNum
  | inf : JSNum
  | ninf : JSNum
  | num : ℚ → JSNum
deriving DecidableEq

/-- JavaScript unary minus. -/
def jsNeg : JSNum → JSNum
  | .nan => .nan
  | .inf => .ninf
  | .ninf => .inf
  | .num q => .num (-q)

/-- JavaScript addition. -/
def jsAdd : JSNum → JSNum → JSNum
  | .nan, _ => .nan
  | _, .nan => .nan
  | .inf, .ninf => .nan
  | .ninf, .inf => .nan
  | .inf, _ => .inf
  | _, .inf => .inf
  | .ninf, _ => .ninf
  | _, .ninf => .ninf
  | .num a, .num b => .num (a + b)

/-- JavaScript subtraction. -/
def jsSub (a b : JSNum) : JSNum := jsAdd a (jsNeg b)

/-- JavaScript multiplication (infinity times zero is NaN). -/
def jsMul : JSNum → JSNum → JSNum
  | .nan, _ => .nan
  | _, .nan => .nan
  | .inf, .inf => .inf
  | .inf, .ninf => .ninf
  | .ninf, .inf => .ninf
  | .ninf, .ninf => .inf
  | .inf, .num b => if b = 0 then .nan else if 0 < b then .inf else .ninf
  | .num a, .inf => if a = 0 then .nan else if 0 < a then .inf else .ninf
  | .ninf, .num b => if b = 0 then .nan else if 0 < b then .ninf else .inf
  | .num a, .ninf => if a = 0 then .nan else if 0 < a then .ninf else .inf
  | .num a, .num b => .num (a * b)

/-- JavaScript division (x/0 follows the sign of x, 0/0 and inf/inf are NaN;
negative zero is not modelled, so the 0 divisor is treated as positive). -/
def jsDiv : JSNum → JSNum → JSNum
  | .nan, _ => .nan
  | _, .nan => .nan
  | .inf, .inf => .nan
  | .inf, .ninf => .nan
  | .ninf, .inf => .nan
  | .ninf, .ninf => .nan
  | .inf, .num b => if 0 ≤ b then .inf else .ninf
  | .ninf, .num b => if 0 ≤ b then .ninf else .inf
  | .num _, .inf => .num 0
  | .num _, .ninf => .num 0
  | .num a, .num b =>
    if b = 0 then (if a = 0 then .nan else if 0 < a then .inf else .ninf)
    else .num (a / b)

/-- Math.min: NaN if either argument is NaN. -/
def jsMin : JSNum → JSNum → JSNum
  | .nan, _ => .nan
  | _, .nan => .nan
  | .ninf, _ => .ninf
  | _, .ninf => .ninf
  | .inf, b => b
  | a, .inf => a
  | .num a, .num b => .num (min a b)

/-- Math.max: NaN if either argument is NaN. -/
def jsMax : JSNum → JSNum → JSNum
  | .nan, _ => .nan
  | _, .nan => .nan
  | .inf, _ => .inf
  | _, .inf => .inf
  | .ninf, b => b
  | a, .ninf => a
  | .num a, .num b => .num (max a b)

/-- Math.abs. -/
def jsAbs : JSNum → JSNum
  | .nan => .nan
  | .inf => .inf
  | .ninf => .inf
  | .num q => .num |q|

/-- JavaScript comparison a <= b (false whenever either side is NaN). -/
def jsLe : JSNum → JSNum → Bool
  | .nan, _ => false
  | _, .nan => false
  | .ninf, _ => true
  | _, .ninf => false
  | _, .inf => true
  | .inf, _ => false
  | .num a, .num b => a ≤ b

/-- JavaScript comparison a < b (false whenever either side is NaN). -/
def jsLt : JSNum → JSNum → Bool
  | .nan, _ => false
  | _, .nan => false
  | _, .ninf => false
  | .ninf, _ => true
  | .inf, _ => false
  | _, .inf => true
  | .num a, .num b => a < b

/-- NaN test. -/
def jsIsNaN : JSNum → Bool
  | .nan => true
  | _ => false

/-- Truthiness of a number in a JavaScript condition: false for 0 and NaN. -/
def jsTruthy : JSNum → Bool
  | .nan => false
  | .num q => q ≠ 0
  | _ => true

/-- Decimal digit test for parseFloat. -/
def isDig (c : Char) : Bool := '0' ≤ c && c ≤ '9'

/-- Whitespace skipped by parseFloat. -/
def isWS (c : Char) : Bool :=
  c = ' ' || c = '\t' || c = '\n' || c = '\r' || c = '\x0b' || c = '\x0c'

/-- Value of a list of decimal digits. -/
def digitsVal (ds : List Char) : ℕ :=
  ds.foldl (fun a c => a * 10 + (c.toNat - 48)) 0

/-- Digits of an exponent part; the exponent contributes only when at least
one digit follows, as in JavaScript longest-valid-prefix parsing. -/
def parseExpDigits (sgn : ℤ) (rr : List Char) : ℤ :=
  if (rr.span isDig).1.isEmpty then 0 else sgn * (digitsVal (rr.span isDig).1 : ℤ)

/-- Optional sign of an exponent part. -/
def parseExpSigned (r : List Char) : ℤ :=
  match r with
  | '+' :: rr => parseExpDigits 1 rr
  | '-' :: rr => parseExpDigits (-1) rr
  | rr => parseExpDigits 1 rr

/-- Exponent part of a decimal literal. -/
def parseExpPart (cs : List Char) : ℤ :=
  match cs with
  | 'e' :: r => parseExpSigned r
  | 'E' :: r => parseExpSigned r
  | _ => 0

/-- Body of parseFloat after the optional sign. -/
def parseFloatBody (sgn : ℚ) (cs : List Char) : JSNum :=
  if cs.take 8 = "Infinity".data then (if sgn = 1 then .inf else .ninf)
  else
    let ip := (cs.span isDig).1
    let rest := (cs.span isDig).2
    let fpRest : List Char × List Char :=
      match rest with
      | '.' :: r => r.span isDig
      | _ => ([], rest)
    let fp := fpRest.1
    if ip.isEmpty && fp.isEmpty then .nan
    else
      let mant : ℚ := (digitsVal ip : ℚ) + (digitsVal fp : ℚ) / ((10: ℚ) ^ fp.length)
      let expo : ℤ := parseExpPart fpRest.2
      .num (sgn * mant * (10 : ℚ) ^ expo)

/-- Sign handling for parseFloat. -/
def parseFloatSigned (cs : List Char) : JSNum :=
  match cs with
  | '+' :: r => parseFloatBody 1 r
  | '-' :: r => parseFloatBody (-1) r
  | r => parseFloatBody 1 r

/-- Model of JavaScript parseFloat: skip leading whitespace, optional sign,
then the longest prefix that is Infinity or a decimal literal with optional
fraction and exponent; NaN when no such prefix exists. -/
def parseFloat (s : String) : JSNum :=
  parseFloatSigned ((s.data.dropWhile isWS))

/-
DOM model: an element is a tag name with an attribute list; a document is
the flattened, document-ordered list of its elements (the list returned by
querySelectorAll applied to the whole document).
-/

/-- Model of String.prototype.toUpperCase for the ASCII strings of this
code base (character-wise uppercasing). -/
def strUpper (s : String) : String := String.mk (s.data.map Char.toUpper)

/-- Model of String.prototype.toLowerCase for the ASCII strings of this
code base (character-wise lowercasing). -/
def strLower (s : String) : String := String.mk (s.data.map Char.toLower)

deriving instance DecidableEq for Except

/-- SVG DOM element: tag name and attribute list. -/
structure SVGElement where
  tagName : String
  attrs : List (String × String)
deriving DecidableEq

/-- Parsed SVG document: all elements in document order. -/
structure Document where
  elements : List SVGElement
deriving DecidableEq

/-- Model of getAttribute: the attribute's value, or none when absent. -/
def getAttr (e : SVGElement) (name : String) : Option String :=
  (e.attrs.find? (fun p => p.1 = name)).map (fun p => p.2)

/-- Value of `getAttribute(name) || dflt`: the default replaces both a
missing attribute (null) and an empty string, the two falsy cases. -/
def attrOr (e : SVGElement) (name dflt : String) : String :=
  match getAttr e name with
  | none => dflt
  | some s => if s = "" then dflt else s

/-- Numeric attribute read `parseFloat(element.getAttribute(n) || dflt)`
with an explicit default string. -/
def numAttrD (e : SVGElement) (name dflt : String) : JSNum :=
  parseFloat (attrOr e name dflt)

/-- Numeric attribute read with the usual "0" default. -/
def numAttr (e : SVGElement) (name : String) : JSNum :=
  numAttrD e name "0"

/-- Track color constants (track-types.ts). -/
def TRACK_COLORS_TRACK_AREA : String := "#00FF00"

/-- Wall color constant. -/
def TRACK_COLORS_WALL : String := "#000000"

/-- Start-line color constant. -/
def TRACK_COLORS_START_LINE : String := "#0000FF"

/-- Finish-line color constant. -/
def TRACK_COLORS_FINISH_LINE : String := "#FFD700"

/-- Obstacle color constant. -/
def TRACK_COLORS_OBSTACLE : String := "#800080"

/-- Test whether an element's fill or stroke matches a color, as in the
body of extractElementsByColor (case-insensitive via toUpperCase; a missing
attribute never matches). -/
def colorMatches (e : SVGElement) (color : String) : Bool :=
  (match getAttr e "fill" with
   | some f => strUpper f = strUpper color
   | none => false) ||
  (match getAttr e "stroke" with
   | some s => strUpper s = strUpper color
   | none => false)

/-- svg-parser.ts extractElementsByColor: every element whose fill or
stroke equals the color, case-insensitively, in document order. -/
def extractElementsByColor (doc : Document) (color : String) : List SVGElement :=
  doc.elements.filter (fun e => colorMatches e color)

/-- Bucketed raw track elements (track-types.ts RawTrackElements). -/
structure RawTrackElements where
  trackAreas : List SVGElement
  walls : List SVGElement
  obstacles : List SVGElement
  startLines : List SVGElement
  finishLines : List SVGElement
deriving DecidableEq

/-- svg-parser.ts extractTrackElements: classify by the five role colors. -/
def extractTrackElements (doc : Document) : RawTrackElements :=
  { trackAreas := extractElementsByColor doc TRACK_COLORS_TRACK_AREA
    walls := extractElementsByColor doc TRACK_COLORS_WALL
    obstacles := extractElementsByColor doc TRACK_COLORS_OBSTACLE
    startLines := extractElementsByColor doc TRACK_COLORS_START_LINE
    finishLines := extractElementsByColor doc TRACK_COLORS_FINISH_LINE }

/-- Model of querySelector applied to the svg tag selector: the first
element of the document, in document order, whose tag is svg. -/
def findSVGRoot (doc : Document) : Option SVGElement :=
  doc.elements.find? (fun e => e.tagName = "svg")

/-- Declared width and height of the root element. -/
structure SVGSize where
  width : JSNum
  height : JSNum
deriving DecidableEq

/-- svg-parser.ts getSVGDimensions: throws when there is no svg root or
when a parsed dimension is strictly equal to 0 (NaN is not equal to 0, so
an unparseable non-empty declared value is returned as NaN). -/
def getSVGDimensions (doc : Document) : Except String SVGSize :=
  match findSVGRoot doc with
  | none => .error "No SVG root element found"
  | some svgElement =>
    let width := numAttr svgElement "width"
    let height := numAttr svgElement "height"
    if width = .num 0 || height = .num 0 then
      .error "SVG dimensions are invalid or missing"
    else
      .ok { width := width, height := height }

/-- svg-parser.ts getSVGWorldSize: the data-size attribute when present,
non-empty, parseable and positive; null otherwise. -/
def getSVGWorldSize (doc : Document) : Option JSNum :=
  match findSVGRoot doc with
  | none => none
  | some svgElement =>
    match getAttr svgElement "data-size" with
    | none => none
    | some dataSizeAttr =>
      if dataSizeAttr = "" then none
      else
        let worldSize := parseFloat dataSizeAttr
        if jsIsNaN worldSize || jsLe worldSize (.num 0) then none
        else some worldSize

/-- Axis-aligned box of element-local bounds. -/
structure ElemBounds where
  x : JSNum
  y : JSNum
  width : JSNum
  height : JSNum
deriving DecidableEq

/-- svg-parser.ts getElementBounds: shape-aware bounds for rect, circle and
line; the zero box for every other tag (the switch on the lowercased tag is
written as an if chain over the same distinct cases). -/
def getElementBounds (element : SVGElement) : ElemBounds :=
  let tag := strLower element.tagName
  if tag = "rect" then
    { x := numAttr element "x"
      y := numAttr element "y"
      width := numAttr element "width"
      height := numAttr element "height" }
  else if tag = "circle" then
    let cx := numAttr element "cx"
    let cy := numAttr element "cy"
    let r := numAttr element "r"
    { x := jsSub cx r, y := jsSub cy r, width := jsMul r (.num 2), height := jsMul r (.num 2) }
  else if tag = "line" then
    let x1 := numAttr element "x1"
    let y1 := numAttr element "y1"
    let x2 := numAttr element "x2"
    let y2 := numAttr element "y2"
    let strokeWidth := numAttrD element "stroke-width" "1"
    { x := jsSub (jsMin x1 x2) (jsDiv strokeWidth (.num 2))
      y := jsSub (jsMin y1 y2) (jsDiv strokeWidth (.num 2))
      width := jsAdd (jsAbs (jsSub x2 x1)) strokeWidth
      height := jsAdd (jsAbs (jsSub y2 y1)) strokeWidth }
  else
    { x := .num 0, y := .num 0, width := .num 0, height := .num 0 }

/-- Circle attributes returned by getCircleData. -/
structure CircleData where
  cx : JSNum
  cy : JSNum
  radius : JSNum
deriving DecidableEq

/-- svg-parser.ts getCircleData: throws on a non-circle element. -/
def getCircleData (element : SVGElement) : Except String CircleData :=
  if strLower element.tagName ≠ "circle" then .error "Element is not a circle"
  else .ok { cx := numAttr element "cx", cy := numAttr element "cy", radius := numAttr element "r" }

/-- Game configuration handed to the importer (track-types.ts GameConfig). -/
structure GameConfig where
  worldWidth : JSNum
  worldHeight : JSNum
deriving DecidableEq

/-- Uniform scale and centering offsets (track-types.ts ScalingFactor). -/
structure ScalingFactor where
  scaleX : JSNum
  scaleY : JSNum
  offsetX : JSNum
  offsetY : JSNum
deriving DecidableEq

/-- track-transformer.ts calculateScalingFactor: the optional worldSize is
used as a square target when truthy (neither undefined, 0 nor NaN),
otherwise the target is 90 percent of the configured world size; the scale
is the minimum of the two axis ratios and is used for both axes. -/
def calculateScalingFactor (svgSize : SVGSize) (gameConfig : GameConfig)
    (worldSize : Option JSNum) : ScalingFactor :=
  let target : JSNum × JSNum :=
    match worldSize with
    | some w => if jsTruthy w then (w, w)
                else (jsMul gameConfig.worldWidth (.num (9/10)),
                      jsMul gameConfig.worldHeight (.num (9/10)))
    | none => (jsMul gameConfig.worldWidth (.num (9/10)),
               jsMul gameConfig.worldHeight (.num (9/10)))
  let targetWidth := target.1
  let targetHeight := target.2
  let scaleX := jsDiv targetWidth svgSize.width
  let scaleY := jsDiv targetHeight svgSize.height
  let scale := jsMin scaleX scaleY
  let scaledWidth := jsMul svgSize.width scale
  let scaledHeight := jsMul svgSize.height scale
  let offsetX := jsDiv (jsSub gameConfig.worldWidth scaledWidth) (.num 2)
  let offsetY := jsDiv (jsSub gameConfig.worldHeight scaledHeight) (.num 2)
  { scaleX := scale, scaleY := scale, offsetX := offsetX, offsetY := offsetY }

/-- Point in game-world coordinates. -/
structure GamePoint where
  x : JSNum
  y : JSNum
deriving DecidableEq

/-- track-transformer.ts transformPoint. -/
def transformPoint (x y : JSNum) (scaling : ScalingFactor) : GamePoint :=
  { x := jsAdd (jsMul x scaling.scaleX) scaling.offsetX
    y := jsAdd (jsMul y scaling.scaleY) scaling.offsetY }

/-- Axis-aligned rectangle in game-world coordinates (track-types.ts). -/
structure GameRect where
  x : JSNum
  y : JSNum
  width : JSNum
  height : JSNum
deriving DecidableEq

/-- Circle in game-world coordinates (track-types.ts). -/
structure GameCircle where
  x : JSNum
  y : JSNum
  radius : JSNum
deriving DecidableEq

/-- track-transformer.ts svgRectToGameRect. -/
def svgRectToGameRect (element : SVGElement) (scaling : ScalingFactor) : GameRect :=
  let bounds := getElementBounds element
  let topLeft := transformPoint bounds.x bounds.y scaling
  { x := topLeft.x
    y := topLeft.y
    width := jsMul bounds.width scaling.scaleX
    height := jsMul bounds.height scaling.scaleY }

/-- track-transformer.ts svgCircleToGameCircle (the getCircleData call can
throw, so the result is an Except like the exception it models). -/
def svgCircleToGameCircle (element : SVGElement) (scaling : ScalingFactor) :
    Except String GameCircle :=
  match getCircleData element with
  | .error e => .error e
  | .ok circleData =>
    let center := transformPoint circleData.cx circleData.cy scaling
    .ok { x := center.x, y := center.y
          radius := jsMul circleData.radius (jsMin scaling.scaleX scaling.scaleY) }

/-- Overall track bounds (track-types.ts TrackBounds). -/
structure TrackBounds where
  x : JSNum
  y : JSNum
  width : JSNum
  height : JSNum
deriving DecidableEq

/-- State of the min/max fold in processTrackArea. -/
structure AreaFold where
  minX : JSNum
  minY : JSNum
  maxX : JSNum
  maxY : JSNum
deriving DecidableEq

/-- track-transformer.ts processTrackArea: throws on an empty list, else
folds min/max over the transformed rectangles starting from infinities. -/
def processTrackArea (elements : List SVGElement) (scaling : ScalingFactor) :
    Except String TrackBounds :=
  if elements.isEmpty then .error "No track area elements found"
  else
    let st := elements.foldl
      (fun (a : AreaFold) element =>
        let rect := svgRectToGameRect element scaling
        { minX := jsMin a.minX rect.x
          minY := jsMin a.minY rect.y
          maxX := jsMax a.maxX (jsAdd rect.x rect.width)
          maxY := jsMax a.maxY (jsAdd rect.y rect.height) })
      { minX := .inf, minY := .inf, maxX := .ninf, maxY := .ninf }
    .ok { x := st.minX, y := st.minY
          width := jsSub st.maxX st.minX, height := jsSub st.maxY st.minY }

/-- Wall entity (track-types.ts Wall). -/
structure Wall where
  shape : GameRect
  type : String
  id : String
deriving DecidableEq

/-- track-transformer.ts processWalls. -/
def processWalls (elements : List SVGElement) (scaling : ScalingFactor) : List Wall :=
  elements.enum.map (fun p =>
    { shape := svgRectToGameRect p.2 scaling
      type := "wall"
      id := attrOr p.2 "id" ("wall-" ++ toString p.1) })

/-- Obstacle shape: rectangle or circle (track-types.ts GameShape). -/
inductive GameShape where
  | rect : GameRect → GameShape
  | circle : GameCircle → GameShape
deriving DecidableEq

/-- track-types.ts isGameCircle. -/
def isGameCircle : GameShape → Bool
  | .circle _ => true
  | .rect _ => false

/-- Obstacle entity (track-types.ts Obstacle). -/
structure Obstacle where
  shape : GameShape
  type : String
  id : String
deriving DecidableEq

/-- track-transformer.ts processObstacles: circles become game circles,
everything else becomes a game rectangle. -/
def processObstacles (elements : List SVGElement) (scaling : ScalingFactor) :
    Except String (List Obstacle) :=
  elements.enum.mapM (fun p =>
    let id := attrOr p.2 "id" ("obstacle-" ++ toString p.1)
    if strLower p.2.tagName = "circle" then
      match svgCircleToGameCircle p.2 scaling with
      | .error e => .error e
      | .ok c => .ok { shape := .circle c, type := "obstacle", id := id }
    else
      .ok { shape := .rect (svgRectToGameRect p.2 scaling), type := "obstacle", id := id })

/-- Start and finish marker rectangles (track-types.ts TrackMarkers). -/
structure TrackMarkers where
  startLine : Option GameRect
  finishLine : Option GameRect
deriving DecidableEq

/-- track-transformer.ts processStartFinishLines: only the first element of
each bucket is converted; an empty bucket yields null. -/
def processStartFinishLines (startElements finishElements : List SVGElement)
    (scaling : ScalingFactor) : TrackMarkers :=
  { startLine :=
      match startElements with
      | [] => none
      | e :: _ => some (svgRectToGameRect e scaling)
    finishLine :=
      match finishElements with
      | [] => none
      | e :: _ => some (svgRectToGameRect e scaling) }

/-- track-transformer.ts calculateStartPosition: the center of the marker. -/
def calculateStartPosition (startLine : Option GameRect) : Option GamePoint :=
  match startLine with
  | none => none
  | some r => some { x := jsAdd r.x (jsDiv r.width (.num 2))
                     y := jsAdd r.y (jsDiv r.height (.num 2)) }

/-- track-transformer.ts calculateFinishPosition: the center of the marker. -/
def calculateFinishPosition (finishLine : Option GameRect) : Option GamePoint :=
  match finishLine with
  | none => none
  | some r => some { x := jsAdd r.x (jsDiv r.width (.num 2))
                     y := jsAdd r.y (jsDiv r.height (.num 2)) }

/-- Matter body options that the factory sets (matter-factory.ts configs;
the physics engine itself is external, bodies are recorded symbolically). -/
structure MatterBodyConfig where
  isStatic : Bool
  restitution : ℚ
  friction : ℚ
  frictionStatic : ℚ
  label : String
  isSensor : Bool
deriving DecidableEq

/-- matter-factory.ts getWallBodyConfig. -/
def getWallBodyConfig : MatterBodyConfig :=
  { isStatic := true, restitution := 8/10, friction := 1/10
    frictionStatic := 5/10, label := "wall", isSensor := false }

/-- matter-factory.ts getObstacleBodyConfig. -/
def getObstacleBodyConfig : MatterBodyConfig :=
  { isStatic := true, restitution := 9/10, friction := 1/10
    frictionStatic := 5/10, label := "obstacle", isSensor := false }

/-- Symbolic Matter.js body: the constructor called and its arguments
(Bodies.rectangle takes the center point and extents, Bodies.circle the
center and radius). -/
inductive Body where
  | rectangle : JSNum → JSNum → JSNum → JSNum → MatterBodyConfig → Body
  | circle : JSNum → JSNum → JSNum → MatterBodyConfig → Body
deriving DecidableEq

/-- Label override on a body (the `body.label = ...` assignment). -/
def setBodyLabel (b : Body) (l : String) : Body :=
  match b with
  | .rectangle x y w h cfg => .rectangle x y w h { cfg with label := l }
  | .circle x y r cfg => .circle x y r { cfg with label := l }

/-- matter-factory.ts createRectangleBody: Bodies.rectangle at the center. -/
def createRectangleBody (rect : GameRect) (options : MatterBodyConfig) : Body :=
  let centerX := jsAdd rect.x (jsDiv rect.width (.num 2))
  let centerY := jsAdd rect.y (jsDiv rect.height (.num 2))
  .rectangle centerX centerY rect.width rect.height options

/-- matter-factory.ts createCircleBody. -/
def createCircleBody (x y radius : JSNum) (options : MatterBodyConfig) : Body :=
  .circle x y radius options

/-- matter-factory.ts createWallBodies: each id (always a non-empty string,
hence truthy) prefixes the label. -/
def createWallBodies (walls : List Wall) : List Body :=
  walls.map (fun wall =>
    let body := createRectangleBody wall.shape getWallBodyConfig
    if wall.id ≠ "" then setBodyLabel body ("wall-" ++ wall.id) else body)

/-- matter-factory.ts createObstacleBodies. -/
def createObstacleBodies (obstacles : List Obstacle) : List Body :=
  obstacles.map (fun obstacle =>
    let body :=
      match obstacle.shape with
      | .circle c => createCircleBody c.x c.y c.radius getObstacleBodyConfig
      | .rect r => createRectangleBody r getObstacleBodyConfig
    if obstacle.id ≠ "" then setBodyLabel body ("obstacle-" ++ obstacle.id) else body)

/-- matter-factory.ts createInvisibleBoundary: deliberately creates no
bodies so that gaps in walls act as passages. -/
def createInvisibleBoundary (_trackBounds : TrackBounds) : List Body :=
  []

/-- Metadata element counts (track-types.ts). -/
structure ElementCounts where
  walls : ℕ
  obstacles : ℕ
  trackAreas : ℕ
deriving DecidableEq

/-- track-types.ts TrackMetadata. -/
structure TrackMetadata where
  originalSVGSize : SVGSize
  scaleFactor : JSNum
  elementCounts : ElementCounts
deriving DecidableEq

/-- track-types.ts ImportedTrack. -/
structure ImportedTrack where
  bounds : TrackBounds
  walls : List Body
  obstacles : List Body
  boundaries : List Body
  startPosition : Option GamePoint
  finishPosition : Option GamePoint
  metadata : TrackMetadata
deriving DecidableEq

/-- Body of track-importer.ts importTrack inside the try block: the
document is taken post-parse (parseSVGText runs the browser's DOMParser);
each throw is an error value. -/
def importTrackBody (doc : Document) (gameConfig : GameConfig) :
    Except String ImportedTrack :=
  match getSVGDimensions doc with
  | .error e => .error e
  | .ok svgDimensions =>
    let worldSize := getSVGWorldSize doc
    let scaling := calculateScalingFactor svgDimensions gameConfig worldSize
    let rawElements := extractTrackElements doc
    if rawElements.trackAreas.isEmpty then .error "No track areas found in SVG"
    else
      match processTrackArea rawElements.trackAreas scaling with
      | .error e => .error e
      | .ok trackBounds =>
        let walls := processWalls rawElements.walls scaling
        match processObstacles rawElements.obstacles scaling with
        | .error e => .error e
        | .ok obstacles =>
          let markers := processStartFinishLines
            rawElements.startLines rawElements.finishLines scaling
          let wallBodies := createWallBodies walls
          let obstacleBodies := createObstacleBodies obstacles
          let boundaryBodies := createInvisibleBoundary trackBounds
          let startPosition := calculateStartPosition markers.startLine
          let finishPosition := calculateFinishPosition markers.finishLine
          .ok { bounds := trackBounds
                walls := wallBodies
                obstacles := obstacleBodies
                boundaries := boundaryBodies
                startPosition := startPosition
                finishPosition := finishPosition
                metadata := { originalSVGSize := svgDimensions
                              scaleFactor := scaling.scaleX
                              elementCounts := { walls := walls.length
                                                 obstacles := obstacles.length
                                                 trackAreas := rawElements.trackAreas.length } } }

/-- track-importer.ts importTrack: the top-level catch re-throws every
exception wrapped in the single import-failure message. -/
def importTrack (doc : Document) (gameConfig : GameConfig) :
    Except String ImportedTrack :=
  match importTrackBody doc gameConfig with
  | .ok track => .ok track
  | .error e => .error ("Track import failed: " ++ e)

/-- track-types.ts ValidationResult. -/
structure ValidationResult where
  isValid : Bool
  errors : List String
  warnings : List String
deriving DecidableEq

/-- track-importer.ts validateTrackData: one error condition, five
independent warning conditions, validity determined by errors alone. -/
def validateTrackData (track : ImportedTrack) : ValidationResult :=
  let errors : List String :=
    if jsLe track.bounds.width (.num 0) || jsLe track.bounds.height (.num 0)
    then ["Track bounds are invalid"] else []
  let warnings : List String :=
    (if track.startPosition.isNone then ["No start line found in track"] else []) ++
    (if track.finishPosition.isNone then ["No finish line found in track"] else []) ++
    (if track.walls.isEmpty then ["No walls found in track"] else []) ++
    (if track.obstacles.isEmpty then ["No obstacles found in track"] else []) ++
    (if jsLt (.num 10000) track.bounds.width || jsLt (.num 10000) track.bounds.height
     then ["Track is very large and may impact performance"] else [])
  { isValid := errors.isEmpty, errors := errors, warnings := warnings }

/-- Sample document with a root of size 100x100 and one green track-area
rectangle covering it. -/
def sampleTrackDoc : Document :=
  { elements :=
      [ { tagName := "svg", attrs := [("width", "100"), ("height", "100")] }
      , { tagName := "rect"
        , attrs := [("x", "0"), ("y", "0"), ("width", "100"), ("height", "100"),
                    ("fill", "#00FF00")] } ] }

/-- Sample game configuration of 100x100 world units. -/
def sampleConfig : GameConfig := { worldWidth := .num 100, worldHeight := .num 100 }

/-- Document whose track-area bucket is empty: a root and one wall. -/
def noAreaDoc : Document :=
  { elements :=
      [ { tagName := "svg", attrs := [("width", "100"), ("height", "100")] }
      , { tagName := "rect"
        , attrs := [("width", "10"), ("height", "10"), ("fill", "#000000")] } ] }

/-- Document whose root declares an unparseable width. -/
def badWidthDoc : Document :=
  { elements :=
      [ { tagName := "svg", attrs := [("width", "abc"), ("height", "600")] } ] }

/-- Identity scaling (scale 1, no offsets). -/
def unitScaling : ScalingFactor :=
  { scaleX := .num 1, scaleY := .num 1, offsetX := .num 0, offsetY := .num 0 }

/-- Rectangle element declaring a negative width. -/
def negWidthRect : SVGElement :=
  { tagName := "rect", attrs := [("width", "-5"), ("fill", "#000000")] }

/-- Element whose fill is the wall color and whose stroke is the start-line
color. -/
def dualColorRect : SVGElement :=
  { tagName := "rect", attrs := [("fill", "#000000"), ("stroke", "#0000FF")] }

/-- Single-element document around dualColorRect. -/
def dualColorDoc : Document := { elements := [dualColorRect] }

/-- Spec-side target footprint rule, for comparison with the code: a
nonzero explicit world size gives a square target, otherwise the target is
90 percent of the configured world in each axis. -/
def specTargetFootprint (w h : ℚ) (worldSize : Option ℚ) : ℚ × ℚ :=
  match worldSize with
  | some ws => if ws ≠ 0 then (ws, ws) else (w * (9/10), h * (9/10))
  | none => (w * (9/10), h * (9/10))

/-- Success test on an Except value. -/
def exIsOk {ε α : Type} : Except ε α → Bool
  | .ok _ => true
  | .error _ => false

/-- Line element of the worked example in the spec. -/
def sampleLine : SVGElement :=
  { tagName := "line"
  , attrs := [("x1", "100"), ("y1", "150"), ("x2", "200"), ("y2", "250"),
              ("stroke-width", "10")] }

/-- Rectangle element with small numeric attributes. -/
def sampleRect : SVGElement :=
  { tagName := "rect", attrs := [("x", "1"), ("y", "2"), ("width", "3"), ("height", "4")] }

/-- Rectangle element whose width attribute is a non-numeric string. -/
def abcWidthRect : SVGElement :=
  { tagName := "rect", attrs := [("width", "abc")] }

/-
Helper lemmas about the JavaScript number operations on rational values.
-/

theorem jsAdd_num (a b : ℚ) : jsAdd (.num a) (.num b) = .num (a + b) := rfl

theorem jsSub_num (a b : ℚ) : jsSub (.num a) (.num b) = .num (a - b) := by
  simp [jsSub, jsAdd, jsNeg, sub_eq_add_neg]

theorem jsMul_num (a b : ℚ) : jsMul (.num a) (.num b) = .num (a * b) := rfl

theorem jsDiv_num (a b : ℚ) (hb : b ≠ 0) : jsDiv (.num a) (.num b) = .num (a / b) := by
  simp [jsDiv, hb]

theorem jsMin_num (a b : ℚ) : jsMin (.num a) (.num b) = .num (min a b) := rfl

theorem jsAbs_num (a : ℚ) : jsAbs (.num a) = .num |a| := rfl

theorem jsLe_num (a b : ℚ) : jsLe (.num a) (.num b) = decide (a ≤ b) := rfl

theorem jsAdd_nan_left (x : JSNum) : jsAdd .nan x = .nan := by cases x <;> rfl

theorem jsAdd_nan_right (x : JSNum) : jsAdd x .nan = .nan := by cases x <;> rfl

theorem jsSub_nan_left (x : JSNum) : jsSub .nan x = .nan := by cases x <;> rfl

theorem jsSub_nan_right (x : JSNum) : jsSub x .nan = .nan := by cases x <;> rfl

theorem jsMul_nan_left (x : JSNum) : jsMul .nan x = .nan := by cases x <;> rfl

theorem jsMin_nan_left (x : JSNum) : jsMin .nan x = .nan := by cases x <;> rfl

theorem jsMin_nan_right (x : JSNum) : jsMin x .nan = .nan := by cases x <;> rfl

theorem jsDiv_nan_left (x : JSNum) : jsDiv .nan x = .nan := by cases x <;> rfl

theorem jsAbs_nan : jsAbs .nan = .nan := rfl

/-
Helper lemmas about the importer pipeline.
-/

theorem importTrack_ok_iff (doc : Document) (cfg : GameConfig) (t : ImportedTrack) :
    importTrack doc cfg = .ok t ↔ importTrackBody doc cfg = .ok t := by
  unfold importTrack
  split <;> simp_all

theorem importTrack_wraps (doc : Document) (cfg : GameConfig) (m : String)
    (h : importTrackBody doc cfg = .error m) :
    importTrack doc cfg = .error ("Track import failed: " ++ m) := by
  unfold importTrack
  split <;> simp_all

theorem importTrackBody_ok_fields (doc : Document) (cfg : GameConfig) (t : ImportedTrack)
    (h : importTrackBody doc cfg = .ok t) :
    t.boundaries = [] ∧
    (extractTrackElements doc).trackAreas ≠ [] ∧
    (∃ dims, getSVGDimensions doc = .ok dims ∧
      t.startPosition = calculateStartPosition
        (processStartFinishLines (extractTrackElements doc).startLines
          (extractTrackElements doc).finishLines
          (calculateScalingFactor dims cfg (getSVGWorldSize doc))).startLine ∧
      t.finishPosition = calculateFinishPosition
        (processStartFinishLines (extractTrackElements doc).startLines
          (extractTrackElements doc).finishLines
          (calculateScalingFactor dims cfg (getSVGWorldSize doc))).finishLine) := by
  unfold importTrackBody at h
  split at h
  · exact absurd h (by simp)
  next dims hd =>
    dsimp only [] at h
    split at h
    next hempty =>
      exact absurd h (by simp)
    next hempty =>
      split at h
      · exact absurd h (by simp)
      next tb htb =>
        split at h
        · exact absurd h (by simp)
        next obs hobs =>
          injection h with h
          subst h
          refine ⟨rfl, ?_, dims, hd, rfl, rfl⟩
          intro hnil
          simp [hnil] at hempty

/-- C9: for every successful call to importTrack, the boundaries field of
the returned ImportedTrack is the empty list — no perimeter bodies are
synthesized under the current policy, whatever the input document, the
configuration, and the computed track bounds. -/
theorem C9_boundaries_empty (doc : Document) (cfg : GameConfig) (t : ImportedTrack)
    (h : importTrack doc cfg = .ok t) : t.boundaries = [] :=
  (importTrackBody_ok_fields doc cfg t ((importTrack_ok_iff doc cfg t).mp h)).1

unseal Rat.mul Rat.add Rat.sub Rat.inv in
/-- C9 witness: a concrete successful import whose boundaries list is
empty. -/
theorem C9_witness :
    (importTrack sampleTrackDoc sampleConfig).map (fun t => t.boundaries) = .ok [] := by
  cases h : importTrack sampleTrackDoc sampleConfig with
  | error e =>
    have hok : exIsOk (importTrack sampleTrackDoc sampleConfig) = true := by decide
    rw [h] at hok
    simp [exIsOk] at hok
  | ok t =>
    simp [Except.map, C9_boundaries_empty sampleTrackDoc sampleConfig t h]

/-- C2: whenever the track-area bucket of a document is empty the import
fails; every error thrown in the body surfaces as the single wrapped
failure message carrying the original message; and when the root
dimensions are valid, the empty-bucket failure carries exactly the
no-track-areas message. -/
theorem C2_import_error_wrapping (doc : Document) (cfg : GameConfig) :
    ((extractTrackElements doc).trackAreas = [] → exIsOk (importTrack doc cfg) = false) ∧
    (∀ m, importTrackBody doc cfg = .error m →
      importTrack doc cfg = .error ("Track import failed: " ++ m)) ∧
    ((extractTrackElements doc).trackAreas = [] →
      ∀ dims, getSVGDimensions doc = .ok dims →
      importTrack doc cfg = .error "Track import failed: No track areas found in SVG") := by
  refine ⟨?_, ?_, ?_⟩
  · intro hnil
    cases hb : importTrackBody doc cfg with
    | ok t =>
      exact absurd hnil (importTrackBody_ok_fields doc cfg t hb).2.1
    | error m =>
      rw [importTrack_wraps doc cfg m hb]
      rfl
  · intro m hm
    exact importTrack_wraps doc cfg m hm
  · intro hnil dims hdims
    have hb : importTrackBody doc cfg = .error "No track areas found in SVG" := by
      unfold importTrackBody
      rw [hdims]
      simp [hnil]
    exact importTrack_wraps doc cfg _ hb

unseal Rat.mul Rat.add Rat.sub Rat.inv in
/-- C2 witness: a concrete document with no track-area element fails with
the wrapped no-track-areas message. -/
theorem C2_witness :
    exIsOk (importTrack noAreaDoc sampleConfig) = false ∧
    importTrack noAreaDoc sampleConfig
      = .error "Track import failed: No track areas found in SVG" := by
  have h1 : (extractTrackElements noAreaDoc).trackAreas = [] := by decide
  have h2 : getSVGDimensions noAreaDoc = .ok { width := .num 100, height := .num 100 } := by
    decide
  exact ⟨(C2_import_error_wrapping noAreaDoc sampleConfig).1 h1,
         (C2_import_error_wrapping noAreaDoc sampleConfig).2.2 h1 _ h2⟩

/-- C5: validateTrackData (a total function, so it never throws) reports
invalidity exactly for degenerate bounds, with the invalid-bounds message
as the only possible error; each of the five warnings appears exactly under
its documented condition; and validity is determined by the errors alone,
never by warnings. -/
theorem C5_validateTrackData (track : ImportedTrack) :
    ((validateTrackData track).isValid = false ↔
      (jsLe track.bounds.width (.num 0) || jsLe track.bounds.height (.num 0)) = true) ∧
    (∀ msg, msg ∈ (validateTrackData track).errors ↔
      (msg = "Track bounds are invalid" ∧
       (jsLe track.bounds.width (.num 0) || jsLe track.bounds.height (.num 0)) = true)) ∧
    ("No start line found in track" ∈ (validateTrackData track).warnings ↔
      track.startPosition = none) ∧
    ("No finish line found in track" ∈ (validateTrackData track).warnings ↔
      track.finishPosition = none) ∧
    ("No walls found in track" ∈ (validateTrackData track).warnings ↔ track.walls = []) ∧
    ("No obstacles found in track" ∈ (validateTrackData track).warnings ↔
      track.obstacles = []) ∧
    ("Track is very large and may impact performance" ∈ (validateTrackData track).warnings ↔
      (jsLt (.num 10000) track.bounds.width || jsLt (.num 10000) track.bounds.height) = true) ∧
    ((validateTrackData track).isValid = (validateTrackData track).errors.isEmpty) := by
  unfold validateTrackData
  split_ifs <;>
    simp_all [Option.isNone_iff_eq_none, List.isEmpty_iff]

/-- C7: only the first element of each start/finish bucket is retained
(later duplicates are ignored), positions are the centers of the retained
rectangles, empty buckets yield null markers and positions, and a
successful import of a document with an empty start (resp. finish) bucket
has a null startPosition (resp. finishPosition). -/
theorem C7_start_finish_first (doc : Document) (cfg : GameConfig) (t : ImportedTrack) :
    (∀ (s f : List SVGElement) (sc : ScalingFactor),
      (processStartFinishLines s f sc).startLine
          = s.head?.map (fun e => svgRectToGameRect e sc) ∧
      (processStartFinishLines s f sc).finishLine
          = f.head?.map (fun e => svgRectToGameRect e sc)) ∧
    (∀ r : GameRect, calculateStartPosition (some r)
        = some { x := jsAdd r.x (jsDiv r.width (.num 2))
                 y := jsAdd r.y (jsDiv r.height (.num 2)) }) ∧
    (∀ r : GameRect, calculateFinishPosition (some r)
        = some { x := jsAdd r.x (jsDiv r.width (.num 2))
                 y := jsAdd r.y (jsDiv r.height (.num 2)) }) ∧
    calculateStartPosition none = none ∧
    calculateFinishPosition none = none ∧
    (importTrack doc cfg = .ok t →
      (∃ dims, getSVGDimensions doc = .ok dims ∧
        t.startPosition = calculateStartPosition
          (processStartFinishLines (extractTrackElements doc).startLines
            (extractTrackElements doc).finishLines
            (calculateScalingFactor dims cfg (getSVGWorldSize doc))).startLine ∧
        t.finishPosition = calculateFinishPosition
          (processStartFinishLines (extractTrackElements doc).startLines
            (extractTrackElements doc).finishLines
            (calculateScalingFactor dims cfg (getSVGWorldSize doc))).finishLine) ∧
      ((extractTrackElements doc).startLines = [] → t.startPosition = none) ∧
      ((extractTrackElements doc).finishLines = [] → t.finishPosition = none)) := by
  refine ⟨?_, fun r => rfl, fun r => rfl, rfl, rfl, ?_⟩
  · intro s f sc
    cases s <;> cases f <;> simp [processStartFinishLines]
  · intro h
    obtain ⟨-, -, dims, hdims, hstart, hfinish⟩ :=
      importTrackBody_ok_fields doc cfg t ((importTrack_ok_iff doc cfg t).mp h)
    refine ⟨⟨dims, hdims, hstart, hfinish⟩, ?_, ?_⟩
    · intro hnil
      rw [hstart, hnil]
      rfl
    · intro hnil
      rw [hfinish, hnil]
      rfl

unseal Rat.mul Rat.add Rat.sub Rat.inv in
/-- C7 witness: the sample document has no start and no finish element,
its import succeeds, and both positions are null. -/
theorem C7_witness :
    (importTrack sampleTrackDoc sampleConfig).map
      (fun t => (t.startPosition, t.finishPosition)) = .ok (none, none) := by
  cases h : importTrack sampleTrackDoc sampleConfig with
  | error e =>
    have hok : exIsOk (importTrack sampleTrackDoc sampleConfig) = true := by decide
    rw [h] at hok
    simp [exIsOk] at hok
  | ok t =>
    have h2 := (C7_start_finish_first sampleTrackDoc sampleConfig t).2.2.2.2.2 h
    have hs : (extractTrackElements sampleTrackDoc).startLines = [] := by decide
    have hf : (extractTrackElements sampleTrackDoc).finishLines = [] := by decide
    simp [Except.map, h2.2.1 hs, h2.2.2 hf]

/-- C10: the classification buckets are not disjoint — an element whose
fill matches one role color and whose stroke matches another role color
(case-insensitively) lands in both corresponding buckets; in particular a
rectangle with the wall fill and the start-line stroke is both a wall and a
start line. -/
theorem C10_buckets_overlap :
    (∀ (doc : Document) (e : SVGElement) (f s c1 c2 : String),
      e ∈ doc.elements → getAttr e "fill" = some f → getAttr e "stroke" = some s →
      strUpper f = strUpper c1 → strUpper s = strUpper c2 →
      e ∈ extractElementsByColor doc c1 ∧ e ∈ extractElementsByColor doc c2) ∧
    (dualColorRect ∈ (extractTrackElements dualColorDoc).walls ∧
     dualColorRect ∈ (extractTrackElements dualColorDoc).startLines) := by
  constructor
  · intro doc e f s c1 c2 he hf hs h1 h2
    constructor <;>
      · unfold extractElementsByColor
        refine List.mem_filter.mpr ⟨he, ?_⟩
        simp [colorMatches, hf, hs, h1, h2]
  · exact ⟨by decide, by decide⟩

/-- C10 witness: the dual-colored rectangle is in both the wall bucket and
the start-line bucket of its document. -/
theorem C10_witness :
    dualColorRect ∈ extractElementsByColor dualColorDoc TRACK_COLORS_WALL ∧
    dualColorRect ∈ extractElementsByColor dualColorDoc TRACK_COLORS_START_LINE :=
  C10_buckets_overlap.1 dualColorDoc dualColorRect "#000000" "#0000FF"
    TRACK_COLORS_WALL TRACK_COLORS_START_LINE (by decide) (by decide) (by decide)
    (by decide) (by decide)

theorem jsDiv_num_two (a : ℚ) : jsDiv (.num a) (.num 2) = .num (a / 2) :=
  jsDiv_num a 2 two_ne_zero

unseal Rat.mul Rat.add Rat.sub Rat.inv in
/-- C6: getElementBounds is shape-aware — rect attributes are returned
directly (missing numeric attributes default to 0), a circle yields the box
centered on its center with side 2r, a line yields the min-corner box
padded by half the stroke width (default 1), the worked example yields
exactly the spec's numbers, and any other tag yields the zero box. -/
theorem C6_shape_aware :
    (∀ (e : SVGElement) (x y w h : ℚ), strLower e.tagName = "rect" →
      numAttr e "x" = .num x → numAttr e "y" = .num y →
      numAttr e "width" = .num w → numAttr e "height" = .num h →
      getElementBounds e = { x := .num x, y := .num y, width := .num w, height := .num h }) ∧
    (∀ (e : SVGElement) (cx cy r : ℚ), strLower e.tagName = "circle" →
      numAttr e "cx" = .num cx → numAttr e "cy" = .num cy → numAttr e "r" = .num r →
      getElementBounds e = { x := .num (cx - r), y := .num (cy - r)
                             width := .num (2 * r), height := .num (2 * r) }) ∧
    (∀ (e : SVGElement) (x1 y1 x2 y2 sw : ℚ), strLower e.tagName = "line" →
      numAttr e "x1" = .num x1 → numAttr e "y1" = .num y1 →
      numAttr e "x2" = .num x2 → numAttr e "y2" = .num y2 →
      numAttrD e "stroke-width" "1" = .num sw →
      getElementBounds e = { x := .num (min x1 x2 - sw / 2), y := .num (min y1 y2 - sw / 2)
                             width := .num (|x2 - x1| + sw), height := .num (|y2 - y1| + sw) }) ∧
    (∀ e : SVGElement, getAttr e "stroke-width" = none →
      numAttrD e "stroke-width" "1" = .num 1) ∧
    (∀ (e : SVGElement) (n : String), getAttr e n = none → numAttr e n = .num 0) ∧
    getElementBounds sampleLine
      = { x := .num 95, y := .num 145, width := .num 110, height := .num 110 } ∧
    (∀ e : SVGElement, strLower e.tagName ≠ "rect" → strLower e.tagName ≠ "circle" →
      strLower e.tagName ≠ "line" →
      getElementBounds e = { x := .num 0, y := .num 0, width := .num 0, height := .num 0 }) := by
  refine ⟨?_, ?_, ?_, ?_, ?_, ?_, ?_⟩
  · intro e x y w h ht hx hy hw hh
    simp [getElementBounds, ht, hx, hy, hw, hh]
  · intro e cx cy r ht hcx hcy hr
    simp [getElementBounds, ht, hcx, hcy, hr, jsSub_num, jsMul_num, mul_comm]
  · intro e x1 y1 x2 y2 sw ht hx1 hy1 hx2 hy2 hsw
    simp [getElementBounds, ht, hx1, hy1, hx2, hy2, hsw, jsSub_num, jsMin_num,
      jsDiv_num_two, jsAbs_num, jsAdd_num]
  · intro e hnone
    have : attrOr e "stroke-width" "1" = "1" := by simp [attrOr, hnone]
    simp [numAttrD, this]
    decide
  · intro e n hnone
    have : attrOr e n "0" = "0" := by simp [attrOr, hnone]
    simp [numAttr, numAttrD, this]
    decide
  · decide
  · intro e h1 h2 h3
    simp [getElementBounds, h1, h2, h3]

unseal Rat.mul Rat.add Rat.sub Rat.inv in
/-- C6 witness: the rect case applied to a concrete rectangle. -/
theorem C6_witness :
    getElementBounds sampleRect
      = { x := .num 1, y := .num 2, width := .num 3, height := .num 4 } :=
  C6_shape_aware.1 sampleRect 1 2 3 4 (by decide) (by decide) (by decide)
    (by decide) (by decide)

unseal Rat.mul Rat.add Rat.sub Rat.inv in
/-- C1 counterexample: with an explicit world size of 0 (which the claim
quantifies over, demanding target width = target height = 0), the code
falls back to the 90 percent footprint, returns scale 9 for a 1x1 source in
a 10x10 world, differs from the claimed min(0/1, 0/1), and violates the
claimed fit bound sourceWidth * scaleX <= targetWidth. -/
theorem C1_counterexample :
    (calculateScalingFactor { width := .num 1, height := .num 1 }
        { worldWidth := .num 10, worldHeight := .num 10 } (some (.num 0))).scaleX
      = .num 9 ∧
    (calculateScalingFactor { width := .num 1, height := .num 1 }
        { worldWidth := .num 10, worldHeight := .num 10 } (some (.num 0))).scaleX
      ≠ jsMin (jsDiv (.num 0) (.num 1)) (jsDiv (.num 0) (.num 1)) ∧
    jsLe (jsMul (.num 1) (.num 9)) (.num 0) = false := by
  refine ⟨by decide, by decide, by decide⟩

/-- C1 (amended): for positive source dimensions, positive configured world
dimensions, and an optional finite explicit world size — where a zero
explicit size behaves as if absent — the returned scale is uniform, equals
the minimum of the two target/source ratios for the target footprint (the
explicit square when a nonzero size is given, 90 percent of the world
otherwise), and the scaled source fits that footprint. -/
theorem C1_uniform_scaling (sourceW sourceH wW wH : ℚ) (ws : Option ℚ)
    (hsw : 0 < sourceW) (hsh : 0 < sourceH) (hW : 0 < wW) (hH : 0 < wH) :
    (calculateScalingFactor { width := .num sourceW, height := .num sourceH }
        { worldWidth := .num wW, worldHeight := .num wH } (ws.map JSNum.num)).scaleX
      = (calculateScalingFactor { width := .num sourceW, height := .num sourceH }
          { worldWidth := .num wW, worldHeight := .num wH } (ws.map JSNum.num)).scaleY ∧
    (calculateScalingFactor { width := .num sourceW, height := .num sourceH }
        { worldWidth := .num wW, worldHeight := .num wH } (ws.map JSNum.num)).scaleX
      = .num (min ((specTargetFootprint wW wH ws).1 / sourceW)
                  ((specTargetFootprint wW wH ws).2 / sourceH)) ∧
    sourceW * min ((specTargetFootprint wW wH ws).1 / sourceW)
                  ((specTargetFootprint wW wH ws).2 / sourceH)
      ≤ (specTargetFootprint wW wH ws).1 ∧
    sourceH * min ((specTargetFootprint wW wH ws).1 / sourceW)
                  ((specTargetFootprint wW wH ws).2 / sourceH)
      ≤ (specTargetFootprint wW wH ws).2 := by
  have hswne : sourceW ≠ 0 := ne_of_gt hsw
  have hshne : sourceH ≠ 0 := ne_of_gt hsh
  have key1 : ∀ t1 t2 : ℚ, sourceW * min (t1 / sourceW) (t2 / sourceH) ≤ t1 := by
    intro t1 t2
    have h := mul_le_mul_of_nonneg_left (min_le_left (t1 / sourceW) (t2 / sourceH)) hsw.le
    calc sourceW * min (t1 / sourceW) (t2 / sourceH) ≤ sourceW * (t1 / sourceW) := h
      _ = t1 := by field_simp
  have key2 : ∀ t1 t2 : ℚ, sourceH * min (t1 / sourceW) (t2 / sourceH) ≤ t2 := by
    intro t1 t2
    have h := mul_le_mul_of_nonneg_left (min_le_right (t1 / sourceW) (t2 / sourceH)) hsh.le
    calc sourceH * min (t1 / sourceW) (t2 / sourceH) ≤ sourceH * (t2 / sourceH) := h
      _ = t2 := by field_simp
  refine ⟨rfl, ?_, key1 _ _, key2 _ _⟩
  rcases ws with _ | w
  · simp [calculateScalingFactor, specTargetFootprint, jsMul_num,
      jsDiv_num, hswne, hshne, jsMin_num]
  · by_cases hw : w = 0
    · subst hw
      simp [calculateScalingFactor, specTargetFootprint, jsTruthy, jsMul_num,
        jsDiv_num, hswne, hshne, jsMin_num]
    · simp [calculateScalingFactor, specTargetFootprint, jsTruthy, hw, jsMul_num,
        jsDiv_num, hswne, hshne, jsMin_num]

/-- C1 witness: the amended scaling statement at a concrete 1x1 source in a
10x10 world with no explicit world size. -/
theorem C1_witness :
    (calculateScalingFactor { width := .num 1, height := .num 1 }
        { worldWidth := .num 10, worldHeight := .num 10 } (Option.map JSNum.num none)).scaleX
      = (calculateScalingFactor { width := .num 1, height := .num 1 }
          { worldWidth := .num 10, worldHeight := .num 10 } (Option.map JSNum.num none)).scaleY ∧
    (calculateScalingFactor { width := .num 1, height := .num 1 }
        { worldWidth := .num 10, worldHeight := .num 10 } (Option.map JSNum.num none)).scaleX
      = .num (min ((specTargetFootprint 10 10 none).1 / 1)
                  ((specTargetFootprint 10 10 none).2 / 1)) ∧
    (1 : ℚ) * min ((specTargetFootprint 10 10 none).1 / 1)
                  ((specTargetFootprint 10 10 none).2 / 1)
      ≤ (specTargetFootprint 10 10 none).1 ∧
    (1 : ℚ) * min ((specTargetFootprint 10 10 none).1 / 1)
                  ((specTargetFootprint 10 10 none).2 / 1)
      ≤ (specTargetFootprint 10 10 none).2 :=
  C1_uniform_scaling 1 1 10 10 none (by norm_num) (by norm_num) (by norm_num) (by norm_num)

/-- C3 counterexample: a rect whose width attribute is the non-numeric
string abc gets width NaN from getElementBounds, not 0 — the bounds are not
finite and 0 is not substituted. -/
theorem C3_counterexample :
    getAttr abcWidthRect "width" = some "abc" ∧
    (getElementBounds abcWidthRect).width = .nan ∧
    (getElementBounds abcWidthRect).width ≠ .num 0 := by
  refine ⟨by decide, by decide, by decide⟩

unseal Rat.mul Rat.add Rat.sub Rat.inv in
/-- C3 (amended): for every rect, circle or line element and every one of
its numeric attributes (x, y, width, height, cx, cy, r, x1, y1, x2, y2,
stroke-width), a missing or empty attribute is read as its default (0; 1
for stroke-width); a non-empty value with no parseable numeric prefix
parses to NaN rather than 0, and that NaN propagates into every component
of the returned bounds that depends on the attribute — getElementBounds
still returns instead of aborting, but the affected bounds are NaN, not
the finite values the claim describes. -/
theorem C3_attribute_leniency :
    (∀ (e : SVGElement) (n : String), getAttr e n = none → numAttr e n = .num 0) ∧
    (∀ (e : SVGElement) (n : String), getAttr e n = some "" → numAttr e n = .num 0) ∧
    (∀ e : SVGElement, getAttr e "stroke-width" = none →
      numAttrD e "stroke-width" "1" = .num 1) ∧
    (∀ e : SVGElement, getAttr e "stroke-width" = some "" →
      numAttrD e "stroke-width" "1" = .num 1) ∧
    (∀ (e : SVGElement) (n d s : String), getAttr e n = some s → s ≠ "" →
      numAttrD e n d = parseFloat s) ∧
    (∀ (e : SVGElement) (s : String), strLower e.tagName = "rect" → s ≠ "" →
      parseFloat s = .nan →
      (getAttr e "x" = some s → (getElementBounds e).x = .nan) ∧
      (getAttr e "y" = some s → (getElementBounds e).y = .nan) ∧
      (getAttr e "width" = some s → (getElementBounds e).width = .nan) ∧
      (getAttr e "height" = some s → (getElementBounds e).height = .nan)) ∧
    (∀ (e : SVGElement) (s : String), strLower e.tagName = "circle" → s ≠ "" →
      parseFloat s = .nan →
      (getAttr e "cx" = some s → (getElementBounds e).x = .nan) ∧
      (getAttr e "cy" = some s → (getElementBounds e).y = .nan) ∧
      (getAttr e "r" = some s →
        (getElementBounds e).x = .nan ∧ (getElementBounds e).y = .nan ∧
        (getElementBounds e).width = .nan ∧ (getElementBounds e).height = .nan)) ∧
    (∀ (e : SVGElement) (s : String), strLower e.tagName = "line" → s ≠ "" →
      parseFloat s = .nan →
      (getAttr e "x1" = some s →
        (getElementBounds e).x = .nan ∧ (getElementBounds e).width = .nan) ∧
      (getAttr e "y1" = some s →
        (getElementBounds e).y = .nan ∧ (getElementBounds e).height = .nan) ∧
      (getAttr e "x2" = some s →
        (getElementBounds e).x = .nan ∧ (getElementBounds e).width = .nan) ∧
      (getAttr e "y2" = some s →
        (getElementBounds e).y = .nan ∧ (getElementBounds e).height = .nan) ∧
      (getAttr e "stroke-width" = some s →
        (getElementBounds e).x = .nan ∧ (getElementBounds e).y = .nan ∧
        (getElementBounds e).width = .nan ∧ (getElementBounds e).height = .nan)) := by
  have hkey : ∀ (e : SVGElement) (n d s : String), getAttr e n = some s → s ≠ "" →
      numAttrD e n d = parseFloat s := by
    intro e n d s hsome hne
    have h0 : attrOr e n d = s := by simp [attrOr, hsome, hne]
    simp [numAttrD, h0]
  refine ⟨?_, ?_, ?_, ?_, hkey, ?_, ?_, ?_⟩
  · intro e n hnone
    have h0 : attrOr e n "0" = "0" := by simp [attrOr, hnone]
    simp [numAttr, numAttrD, h0]
    decide
  · intro e n hempty
    have h0 : attrOr e n "0" = "0" := by simp [attrOr, hempty]
    simp [numAttr, numAttrD, h0]
    decide
  · intro e hnone
    have h0 : attrOr e "stroke-width" "1" = "1" := by simp [attrOr, hnone]
    simp [numAttrD, h0]
    decide
  · intro e hempty
    have h0 : attrOr e "stroke-width" "1" = "1" := by simp [attrOr, hempty]
    simp [numAttrD, h0]
    decide
  · intro e s htag hne hnan
    have hn : ∀ n, getAttr e n = some s → numAttr e n = .nan := by
      intro n hattr
      unfold numAttr
      rw [hkey e n "0" s hattr hne, hnan]
    refine ⟨?_, ?_, ?_, ?_⟩
    · intro hattr
      simp [getElementBounds, htag, hn "x" hattr]
    · intro hattr
      simp [getElementBounds, htag, hn "y" hattr]
    · intro hattr
      simp [getElementBounds, htag, hn "width" hattr]
    · intro hattr
      simp [getElementBounds, htag, hn "height" hattr]
  · intro e s htag hne hnan
    have hn : ∀ n, getAttr e n = some s → numAttr e n = .nan := by
      intro n hattr
      unfold numAttr
      rw [hkey e n "0" s hattr hne, hnan]
    refine ⟨?_, ?_, ?_⟩
    · intro hattr
      simp [getElementBounds, htag, hn "cx" hattr, jsSub_nan_left]
    · intro hattr
      simp [getElementBounds, htag, hn "cy" hattr, jsSub_nan_left]
    · intro hattr
      simp [getElementBounds, htag, hn "r" hattr, jsSub_nan_right, jsMul_nan_left]
  · intro e s htag hne hnan
    have hn : ∀ n, getAttr e n = some s → numAttr e n = .nan := by
      intro n hattr
      unfold numAttr
      rw [hkey e n "0" s hattr hne, hnan]
    have hnD : getAttr e "stroke-width" = some s → numAttrD e "stroke-width" "1" = .nan := by
      intro hattr
      rw [hkey e "stroke-width" "1" s hattr hne, hnan]
    refine ⟨?_, ?_, ?_, ?_, ?_⟩
    · intro hattr
      simp [getElementBounds, htag, hn "x1" hattr, jsMin_nan_left, jsSub_nan_left,
        jsSub_nan_right, jsAbs_nan, jsAdd_nan_left]
    · intro hattr
      simp [getElementBounds, htag, hn "y1" hattr, jsMin_nan_left, jsSub_nan_left,
        jsSub_nan_right, jsAbs_nan, jsAdd_nan_left]
    · intro hattr
      simp [getElementBounds, htag, hn "x2" hattr, jsMin_nan_right, jsSub_nan_left,
        jsSub_nan_right, jsAbs_nan, jsAdd_nan_left]
    · intro hattr
      simp [getElementBounds, htag, hn "y2" hattr, jsMin_nan_right, jsSub_nan_left,
        jsSub_nan_right, jsAbs_nan, jsAdd_nan_left]
    · intro hattr
      simp [getElementBounds, htag, hnD hattr, jsDiv_nan_left, jsSub_nan_right,
        jsAdd_nan_right]

unseal Rat.mul Rat.add Rat.sub Rat.inv in
/-- C3 witness: a rect without a width attribute reads width 0; the abc
rect has width NaN; a circle with r abc has all four bounds components NaN;
a line with x1 abc has x and width NaN. -/
theorem C3_witness :
    numAttr { tagName := "rect", attrs := [] } "width" = .num 0 ∧
    (getElementBounds abcWidthRect).width = .nan ∧
    ((getElementBounds { tagName := "circle", attrs := [("r", "abc")] }).x = .nan ∧
     (getElementBounds { tagName := "circle", attrs := [("r", "abc")] }).y = .nan ∧
     (getElementBounds { tagName := "circle", attrs := [("r", "abc")] }).width = .nan ∧
     (getElementBounds { tagName := "circle", attrs := [("r", "abc")] }).height = .nan) ∧
    ((getElementBounds { tagName := "line", attrs := [("x1", "abc")] }).x = .nan ∧
     (getElementBounds { tagName := "line", attrs := [("x1", "abc")] }).width = .nan) :=
  ⟨C3_attribute_leniency.1 { tagName := "rect", attrs := [] } "width" (by decide),
   (C3_attribute_leniency.2.2.2.2.2.1 abcWidthRect "abc" (by decide) (by decide)
      (by decide)).2.2.1 (by decide),
   (C3_attribute_leniency.2.2.2.2.2.2.1 { tagName := "circle", attrs := [("r", "abc")] }
      "abc" (by decide) (by decide) (by decide)).2.2 (by decide),
   (C3_attribute_leniency.2.2.2.2.2.2.2 { tagName := "line", attrs := [("x1", "abc")] }
      "abc" (by decide) (by decide) (by decide)).1 (by decide)⟩

unseal Rat.mul Rat.add Rat.sub Rat.inv in
/-- C4 counterexample: a root whose declared width is the unparseable
string abc does not fail — getSVGDimensions returns NaN for that dimension
instead of raising the invalid-dimensions error. -/
theorem C4_counterexample :
    getAttr { tagName := "svg", attrs := [("width", "abc"), ("height", "600")] }
        "width" = some "abc" ∧
    parseFloat "abc" = .nan ∧
    getSVGDimensions badWidthDoc = .ok { width := .nan, height := .num 600 } := by
  refine ⟨by decide, by decide, by decide⟩

unseal Rat.mul Rat.add Rat.sub Rat.inv in
/-- C4 (amended): getSVGDimensions fails with the missing-root error when
there is no root drawing element, fails with the invalid-dimensions error
exactly when a parsed declared dimension equals 0 — which covers missing
and empty declared values, since those parse to 0 — and otherwise returns
the parsed declared values, which are NaN (not an error) for non-empty
unparseable declarations. -/
theorem C4_getSVGDimensions (doc : Document) :
    (findSVGRoot doc = none → getSVGDimensions doc = .error "No SVG root element found") ∧
    (∀ svgElement, findSVGRoot doc = some svgElement →
      ((numAttr svgElement "width" = .num 0 ∨ numAttr svgElement "height" = .num 0) →
        getSVGDimensions doc = .error "SVG dimensions are invalid or missing") ∧
      (numAttr svgElement "width" ≠ .num 0 → numAttr svgElement "height" ≠ .num 0 →
        getSVGDimensions doc
          = .ok { width := numAttr svgElement "width"
                , height := numAttr svgElement "height" })) ∧
    (∀ (e : SVGElement) (n : String), getAttr e n = none → numAttr e n = .num 0) := by
  refine ⟨?_, ?_, ?_⟩
  · intro hnone
    simp [getSVGDimensions, hnone]
  · intro svgElement hroot
    constructor
    · intro hzero
      unfold getSVGDimensions
      rw [hroot]
      rcases hzero with hz | hz <;> simp [hz]
    · intro hw hh
      unfold getSVGDimensions
      rw [hroot]
      simp [hw, hh]
  · intro e n hnone
    have h0 : attrOr e n "0" = "0" := by simp [attrOr, hnone]
    simp [numAttr, numAttrD, h0]
    decide

unseal Rat.mul Rat.add Rat.sub Rat.inv in
/-- C4 witness: the sample root with declared 100x100 returns exactly those
values. -/
theorem C4_witness :
    getSVGDimensions sampleTrackDoc
      = .ok { width := numAttr { tagName := "svg"
                               , attrs := [("width", "100"), ("height", "100")] } "width"
            , height := numAttr { tagName := "svg"
                                , attrs := [("width", "100"), ("height", "100")] } "height" } :=
  ((C4_getSVGDimensions sampleTrackDoc).2.1
      { tagName := "svg", attrs := [("width", "100"), ("height", "100")] }
      (by decide)).2 (by decide) (by decide)

unseal Rat.mul Rat.add Rat.sub Rat.inv in
/-- C8 counterexample: a wall rect declaring width -5, under the identity
scaling, yields a Wall shape of width -5, violating the claimed GameRect
invariant width >= 0. -/
theorem C8_counterexample :
    (processWalls [negWidthRect] unitScaling).map (fun w => w.shape.width)
      = [.num (-5)] ∧
    jsLe (.num 0) (.num (-5)) = false := by
  refine ⟨by decide, by decide⟩

/-- C8 (amended): every GameRect produced by svgRectToGameRect — which
covers wall shapes, rectangular obstacle shapes, and the start and finish
marker rectangles — has nonnegative width and height whenever the source
element's parsed bounds are nonnegative rationals and both scale factors
are nonnegative rationals; for negative declared sizes or negative scales
the invariant can fail. -/
theorem C8_rect_nonneg (element : SVGElement) (sc : ScalingFactor) (bw bh sx sy : ℚ)
    (hbw : (getElementBounds element).width = .num bw)
    (hbh : (getElementBounds element).height = .num bh)
    (hsx : sc.scaleX = .num sx) (hsy : sc.scaleY = .num sy)
    (h1 : 0 ≤ bw) (h2 : 0 ≤ bh) (h3 : 0 ≤ sx) (h4 : 0 ≤ sy) :
    jsLe (.num 0) (svgRectToGameRect element sc).width = true ∧
    jsLe (.num 0) (svgRectToGameRect element sc).height = true := by
  unfold svgRectToGameRect
  simp only [hbw, hbh, hsx, hsy, jsMul_num, jsLe_num, decide_eq_true_eq]
  exact ⟨mul_nonneg h1 h3, mul_nonneg h2 h4⟩

unseal Rat.mul Rat.add Rat.sub Rat.inv in
/-- C8 witness: a rect with defaulted (zero) bounds under identity scaling
satisfies the nonnegativity invariant. -/
theorem C8_witness :
    jsLe (.num 0) (svgRectToGameRect { tagName := "rect", attrs := [] } unitScaling).width
      = true ∧
    jsLe (.num 0) (svgRectToGameRect { tagName := "rect", attrs := [] } unitScaling).height
      = true :=
  C8_rect_nonneg { tagName := "rect", attrs := [] } unitScaling 0 0 1 1
    (by decide) (by decide) (by decide) (by decide)
    (by norm_num) (by norm_num) (by norm_num) (by norm_num)
